import Mathlib

/-! MVE: SIFT detector configuration and image base containers.

A shallow embedding of

* `libs/mve/sift.h`: the configuration part of `class Sift` (constructor and the
  inline parameter setters) and `struct SiftOctave`;
* `libs/mve/imagebase.h`: `ImageBase` and `TypedImageBase<T>` (dimensions, the
  data vector, `reinterpret`, `allocate`, `resize`, `clear`, `fill`, `swap`).

Conventions.

* C++ `int` values are `Int`. The setters only store and compare them, so no
  `int` arithmetic can overflow.
* C++ `float` values are represented by the rational number they denote (finite
  values; the setters only store their `float` argument); the literal `1.6f`, the
  conversion `(float)n` and the division `a / b` round to the nearest binary32
  value (ties to even), see `f32`.
* C++ `std::size_t` values are `Nat`; `std::size_t` is taken to be 64 bits wide
  and every `std::size_t` product is reduced modulo `2 ^ 64`, see `size_mul`.
* `std::vector<T>` is `List T`. A call that grows the vector beyond the size it
  can be given throws; the calls that can throw take that size as an argument
  and return an `Outcome`: whether an exception left the call, and the image as
  the call leaves it.
-/

namespace mve

/-! ## binary32 rounding -/

/-- Halving loop computing `⌊log₂ n⌋` for `n ≥ 1` (and `0` for `n = 0`); the first
argument bounds the number of iterations. -/
def floorLog2Aux : Nat → Nat → Nat
  | 0, _ => 0
  | fuel + 1, n => if n < 2 then 0 else floorLog2Aux fuel (n / 2) + 1

/-- The value `⌊log₂ n⌋` for `n ≥ 1`. -/
def floorLog2 (n : Nat) : Nat := floorLog2Aux n n

/-- The binary exponent `⌊log₂ (n / d)⌋` of the positive fraction `n / d`. -/
def binExponent (n d : Nat) : Int :=
  let e : Int := (floorLog2 n : Int) - (floorLog2 d : Int)
  if 0 ≤ e then (if d * 2 ^ e.toNat ≤ n then e else e - 1)
  else (if d ≤ n * 2 ^ (-e).toNat then e else e - 1)

/-- The fraction `n / d` rounded to the nearest integer, ties to the even one. -/
def roundHalfEven (n d : Nat) : Nat :=
  let f := n / d
  let r := n % d
  if 2 * r < d then f else if d < 2 * r then f + 1 else if f % 2 = 0 then f else f + 1

/-- The positive fraction `n / d` rounded to 24 significant bits. -/
def f32pos (n d : Nat) : ℚ :=
  let k : Int := 23 - binExponent n d
  let m : Nat :=
    if 0 ≤ k then roundHalfEven (n * 2 ^ k.toNat) d else roundHalfEven n (d * 2 ^ (-k).toNat)
  (m : ℚ) * (2 : ℚ) ^ (-k)

/-- Rounding of a rational to the nearest binary32 (`float`) value, ties to even.
Exact for results in the normal range `2^-126 ≤ |x| < 2^128`; every constant of
the SIFT configuration lies in that range. -/
def f32 (q : ℚ) : ℚ :=
  if q = 0 then 0 else if 0 < q then f32pos q.num.toNat q.den else -f32pos (-q).num.toNat q.den

/-! ## `class Sift`: configuration -/

/-- The parameter members of `class Sift` (`sift.h`, "Octave parameters" and
"Keypoint filtering parameters"). -/
structure Sift where
  min_octave : Int
  max_octave : Int
  octave_samples : Int
  pre_smoothing : ℚ
  inherent_blur : ℚ
  contrast_thres : ℚ
  edge_ratio_thres : ℚ
  deriving DecidableEq

/-- The constructor `Sift::Sift (void)`. The contrast threshold is computed from
the value `octave_samples` has just been given. -/
def Sift.ctor : Sift :=
  let min_octave : Int := -1
  let max_octave : Int := 4
  let octave_samples : Int := 3
  { min_octave := min_octave
    max_octave := max_octave
    octave_samples := octave_samples
    contrast_thres := f32 (f32 (2 / 100) / f32 (octave_samples : ℚ))
    edge_ratio_thres := f32 10
    pre_smoothing := f32 (16 / 10)
    inherent_blur := f32 (5 / 10) }

/-- The setter `Sift::set_samples_per_octave`. -/
def Sift.set_samples_per_octave (self : Sift) (samples : Int) : Sift :=
  { self with octave_samples := samples }

/-- The setter `Sift::set_min_max_octave`. -/
def Sift.set_min_max_octave (self : Sift) (min_octave max_octave : Int) : Sift :=
  { self with min_octave := max (-1) min_octave, max_octave := max_octave }

/-- The setter `Sift::set_contrast_threshold`. -/
def Sift.set_contrast_threshold (self : Sift) (thres : ℚ) : Sift :=
  { self with contrast_thres := thres }

/-- The setter `Sift::set_edge_threshold`. -/
def Sift.set_edge_threshold (self : Sift) (thres : ℚ) : Sift :=
  { self with edge_ratio_thres := thres }

/-- The setter `Sift::set_inherent_blur`. -/
def Sift.set_inherent_blur (self : Sift) (sigma : ℚ) : Sift :=
  { self with inherent_blur := sigma }

/-- The setter `Sift::set_pre_smoothing`. -/
def Sift.set_pre_smoothing (self : Sift) (sigma : ℚ) : Sift :=
  { self with pre_smoothing := sigma }

/-- One call of a public parameter setter of `Sift`, with its arguments. These are
the six setters whose bodies are in `sift.h`. -/
inductive SiftCall where
  | set_samples_per_octave (samples : Int)
  | set_min_max_octave (min_octave max_octave : Int)
  | set_contrast_threshold (thres : ℚ)
  | set_edge_threshold (thres : ℚ)
  | set_inherent_blur (sigma : ℚ)
  | set_pre_smoothing (sigma : ℚ)
  deriving DecidableEq

/-- Performs one setter call on a detector. -/
def Sift.call (self : Sift) : SiftCall → Sift
  | .set_samples_per_octave samples => self.set_samples_per_octave samples
  | .set_min_max_octave lo hi => self.set_min_max_octave lo hi
  | .set_contrast_threshold thres => self.set_contrast_threshold thres
  | .set_edge_threshold thres => self.set_edge_threshold thres
  | .set_inherent_blur sigma => self.set_inherent_blur sigma
  | .set_pre_smoothing sigma => self.set_pre_smoothing sigma

/-- Performs a sequence of setter calls, first call first. -/
def Sift.calls (self : Sift) (cs : List SiftCall) : Sift :=
  cs.foldl Sift.call self

/-- The detector obtained from a newly constructed one by a sequence of setter
calls. -/
def Sift.run (cs : List SiftCall) : Sift :=
  Sift.ctor.calls cs

/-- Whether a call is a call of `set_contrast_threshold`. -/
def SiftCall.isContrast : SiftCall → Bool
  | .set_contrast_threshold _ => true
  | _ => false

/-! ## The octave pyramid -/

/-- The record `struct SiftOctave` of `sift.h`: the Gaussian images, the
difference-of-Gaussian images, and the gradient and orientation images. -/
structure SiftOctave (I : Type) where
  img : List I
  dog : List I
  grad : List I
  ori : List I

/-- Modelled from the spec: the blur and resampling primitives that the pyramid
construction consumes (spec section 6, "Blur / resample primitives"); they live
outside `sift.h` and are taken as parameters. `upsample` is the bilinear
upsampling by 2, `subsample img k` the subsampling by `2 ^ k`, `downsample` the
halving that picks every second pixel, `blur img has target` blurs an image of
effective sigma `has` up to sigma `target`, `blur_layer prev s` blurs layer
`s - 1` into layer `s` of an octave, and `sub a b` is the pointwise difference
`a - b`. -/
structure PyramidOps (I : Type) where
  upsample : I → I
  subsample : I → Nat → I
  downsample : I → I
  blur : I → ℚ → ℚ → I
  blur_layer : I → Nat → I
  sub : I → I → I

/-- Modelled from the spec: the layers `s, s + 1, ..., s + count - 1` of an octave,
each produced by blurring the layer before it (spec 4.1, "Within an octave";
`Sift::add_octave` is declared in `sift.h` but its body is not part of it). -/
def gaussian_layers {I : Type} (ops : PyramidOps I) : I → Nat → Nat → List I
  | _, _, 0 => []
  | prev, s, count + 1 =>
    let g := ops.blur_layer prev s
    g :: gaussian_layers ops g (s + 1) count

/-- Modelled from the spec: `Sift::add_octave`, whose body is not part of `sift.h`.
Given layer 0, the Gaussian stack holds layer 0 and the layers `s ∈ [1, S + 2]`,
and the DoG stack holds `D_s = G_{s+1} - G_s` for every pair of consecutive
Gaussian layers (spec 3 and 4.1). Gradient and orientation images are built
lazily and start empty. -/
def add_octave {I : Type} (ops : PyramidOps I) (S : Int) (layer0 : I) : SiftOctave I :=
  let img := layer0 :: gaussian_layers ops layer0 1 (S + 2).toNat
  { img := img
    dog := List.zipWith (fun g gnext => ops.sub gnext g) img img.tail
    grad := []
    ori := [] }

/-- Modelled from the spec: `count` successive octaves starting from the given
first layer; the first layer of the next octave is layer `S` of the current one,
downsampled by 2 (spec 4.1, "Octave transition"). -/
def octave_chain {I : Type} (ops : PyramidOps I) (S : Int) : I → Nat → List (SiftOctave I)
  | _, 0 => []
  | layer0, count + 1 =>
    let oct := add_octave ops S layer0
    oct :: octave_chain ops S (ops.downsample (oct.img.getD S.toNat layer0)) count

/-- Modelled from the spec: the base layer of the first octave (spec 4.1, "Base
layer construction"). For `o_min = -1` the image is upsampled and blurred from
twice the inherent sigma; for `o_min ≥ 0` it is subsampled by `2 ^ o_min` and
blurred from the inherent sigma. -/
def base_layer {I : Type} (ops : PyramidOps I) (cfg : Sift) (image : I) : I :=
  if cfg.min_octave = -1 then
    ops.blur (ops.upsample image) (2 * cfg.inherent_blur) cfg.pre_smoothing
  else
    ops.blur (ops.subsample image cfg.min_octave.toNat) cfg.inherent_blur cfg.pre_smoothing

/-- Modelled from the spec: `Sift::create_octaves`, whose body is not part of
`sift.h`: one octave for each octave index `o ∈ [o_min, o_max]` (spec 3 and
4.1). -/
def create_octaves {I : Type} (ops : PyramidOps I) (cfg : Sift) (image : I) :
    List (SiftOctave I) :=
  octave_chain ops cfg.octave_samples (base_layer ops cfg image)
    (cfg.max_octave - cfg.min_octave + 1).toNat

/-- The validity conditions of a configuration (spec 3, "Invariants"):
`S ≥ 1`, `o_min ≥ -1`, `o_max ≥ o_min`. -/
def Sift.valid (cfg : Sift) : Prop :=
  1 ≤ cfg.octave_samples ∧ -1 ≤ cfg.min_octave ∧ cfg.min_octave ≤ cfg.max_octave

instance (cfg : Sift) : Decidable cfg.valid := by
  unfold Sift.valid; infer_instance

/-! ## `ImageBase` and `TypedImageBase<T>` -/

/-- The number of values of `std::size_t` (64-bit). -/
def SIZE_MOD : Nat := 2 ^ 64

/-- The product `a * b` of two `std::size_t` values: unsigned arithmetic wraps. -/
def size_mul (a b : Nat) : Nat := (a * b) % SIZE_MOD

/-- The class `ImageBase`: width, height and channels. -/
structure ImageBase where
  w : Nat
  h : Nat
  c : Nat
  deriving DecidableEq

/-- The constructor `ImageBase::ImageBase (void)`: initializes members with 0. -/
def ImageBase.ctor : ImageBase := { w := 0, h := 0, c := 0 }

/-- The accessor `ImageBase::width`. -/
def ImageBase.width (self : ImageBase) : Nat := self.w

/-- The accessor `ImageBase::height`. -/
def ImageBase.height (self : ImageBase) : Nat := self.h

/-- The accessor `ImageBase::channels`. -/
def ImageBase.channels (self : ImageBase) : Nat := self.c

/-- The method `ImageBase::reinterpret`: the returned flag and the image
afterwards. -/
def ImageBase.reinterpret (self : ImageBase) (new_w new_h new_c : Nat) : Bool × ImageBase :=
  if size_mul (size_mul new_w new_h) new_c ≠ size_mul (size_mul self.w self.h) self.c then
    (false, self)
  else
    (true, { w := new_w, h := new_h, c := new_c })

/-- The class `TypedImageBase<T>`: an `ImageBase` with the data vector. -/
structure TypedImageBase (T : Type) extends ImageBase where
  data : List T

/-- The default constructor of `TypedImageBase<T>`: an empty image. -/
def TypedImageBase.ctor {T : Type} : TypedImageBase T :=
  { toImageBase := ImageBase.ctor, data := [] }

/-- The method `ImageBase::reinterpret` called on a `TypedImageBase<T>`: only the
base members are involved. -/
def TypedImageBase.reinterpret {T : Type} (self : TypedImageBase T) (new_w new_h new_c : Nat) :
    Bool × TypedImageBase T :=
  let r := self.toImageBase.reinterpret new_w new_h new_c
  (r.1, { self with toImageBase := r.2 })

/-- The result of a call that may throw: whether an exception left the call, and
the image as the call leaves it (the object outlives a caught exception). -/
structure Outcome (T : Type) where
  thrown : Bool
  image : TypedImageBase T

/-- The call `std::vector<T>::resize (n)`: truncates, or appends value-initialized
elements; `none` when it throws. `max_size` is the largest size the vector can be
given at this call: `std::vector<T>::max_size ()` (a larger request throws
`std::length_error`), or less when the allocator cannot provide the memory
(`std::bad_alloc`). A throwing call leaves the vector as it was. -/
def vector_resize {T : Type} [Zero T] (max_size : Nat) (data : List T) (n : Nat) :
    Option (List T) :=
  if n ≤ data.length then some (data.take n)
  else if max_size < n then none
  else some (data ++ List.replicate (n - data.length) 0)

/-- The method `TypedImageBase<T>::resize`: the dimensions are stored first, then
the data vector is resized, which may throw. -/
def TypedImageBase.resize {T : Type} [Zero T] (max_size : Nat) (self : TypedImageBase T)
    (width height chans : Nat) : Outcome T :=
  match vector_resize max_size self.data (size_mul (size_mul width height) chans) with
  | some data => { thrown := false, image := { w := width, h := height, c := chans, data := data } }
  | none => { thrown := true, image := { w := width, h := height, c := chans, data := self.data } }

/-- The method `TypedImageBase<T>::clear`. -/
def TypedImageBase.clear {T : Type} (_self : TypedImageBase T) : TypedImageBase T :=
  { w := 0, h := 0, c := 0, data := [] }

/-- The method `TypedImageBase<T>::allocate`: `clear` followed by `resize`. -/
def TypedImageBase.allocate {T : Type} [Zero T] (max_size : Nat) (self : TypedImageBase T)
    (width height chans : Nat) : Outcome T :=
  self.clear.resize max_size width height chans

/-- The method `TypedImageBase<T>::fill`: every element of the data vector is
overwritten with `value`. -/
def TypedImageBase.fill {T : Type} (self : TypedImageBase T) (value : T) : TypedImageBase T :=
  { self with data := self.data.map (fun _ => value) }

/-- The method `TypedImageBase<T>::swap`: this image and the other one
afterwards. -/
def TypedImageBase.swap {T : Type} (self other : TypedImageBase T) :
    TypedImageBase T × TypedImageBase T :=
  ({ w := other.w, h := other.h, c := other.c, data := other.data },
   { w := self.w, h := self.h, c := self.c, data := self.data })

/-- The method `TypedImageBase<T>::get_pixel_amount`. -/
def TypedImageBase.get_pixel_amount {T : Type} (self : TypedImageBase T) : Nat :=
  size_mul self.w self.h

/-- The method `TypedImageBase<T>::get_value_amount`: the size of the data
vector. -/
def TypedImageBase.get_value_amount {T : Type} (self : TypedImageBase T) : Nat :=
  self.data.length

/-- The method `TypedImageBase<T>::get_byte_size`; `sizeofT` is `sizeof(T)`. -/
def TypedImageBase.get_byte_size {T : Type} (sizeofT : Nat) (self : TypedImageBase T) : Nat :=
  size_mul self.data.length sizeofT

/-- The images that can be reached from a default-constructed image by calls of
`allocate`, `resize`, `clear`, `fill`, `swap` and `reinterpret`; the partner of a
`swap` is itself such an image, and a call of `allocate` or `resize` that throws
leaves such an image too. -/
inductive TypedImageBase.Reachable {T : Type} [Zero T] : TypedImageBase T → Prop
  | ctor : Reachable TypedImageBase.ctor
  | allocate (max_size : Nat) (img : TypedImageBase T) (width height chans : Nat) :
      Reachable img → Reachable (img.allocate max_size width height chans).image
  | resize (max_size : Nat) (img : TypedImageBase T) (width height chans : Nat) :
      Reachable img → Reachable (img.resize max_size width height chans).image
  | clear (img : TypedImageBase T) : Reachable img → Reachable img.clear
  | fill (img : TypedImageBase T) (value : T) : Reachable img → Reachable (img.fill value)
  | reinterpret (img : TypedImageBase T) (new_w new_h new_c : Nat) :
      Reachable img → Reachable (img.reinterpret new_w new_h new_c).2
  | swap_this (img other : TypedImageBase T) :
      Reachable img → Reachable other → Reachable (img.swap other).1
  | swap_other (img other : TypedImageBase T) :
      Reachable img → Reachable other → Reachable (img.swap other).2

/-- The largest size of a vector of 4-byte values (`PTRDIFF_MAX / 4` for a 64-bit
`std::ptrdiff_t`), used as the `max_size` of the worked examples. -/
def MAX_SIZE_4 : Nat := (2 ^ 63 - 1) / 4

/-- A `2 x 3 x 1` image of 4-byte values, freshly allocated. -/
def image_2x3x1 : TypedImageBase Int :=
  (TypedImageBase.ctor.allocate MAX_SIZE_4 2 3 1).image

/-- A `1 x 2 x 1` image of 4-byte values, allocated and filled with 9. -/
def image_nines : TypedImageBase Int :=
  (TypedImageBase.ctor.allocate MAX_SIZE_4 1 2 1).image.fill 9

/-- A concrete instance of the pyramid primitives in which an image is
represented by its width alone: upsampling doubles it, subsampling and
downsampling halve it (rounded down, at least 1), blurring and subtraction keep
it. -/
def widthOps : PyramidOps Nat where
  upsample := fun w => 2 * w
  subsample := fun w k => max 1 (w / 2 ^ k)
  downsample := fun w => max 1 (w / 2)
  blur := fun w _ _ => w
  blur_layer := fun w _ => w
  sub := fun a _ => a

/-! ## Theorems: `Sift` configuration -/

theorem call_min_octave (s : Sift) (c : SiftCall) :
    -1 ≤ s.min_octave → -1 ≤ (s.call c).min_octave := by
  intro h
  cases c <;> simp [Sift.call, Sift.set_samples_per_octave, Sift.set_min_max_octave,
    Sift.set_contrast_threshold, Sift.set_edge_threshold, Sift.set_inherent_blur,
    Sift.set_pre_smoothing, h]

theorem calls_min_octave (cs : List SiftCall) :
    ∀ s : Sift, -1 ≤ s.min_octave → -1 ≤ (s.calls cs).min_octave := by
  induction cs with
  | nil => intro s h; simpa [Sift.calls] using h
  | cons c cs ih =>
    intro s h
    have := ih (s.call c) (call_min_octave s c h)
    simpa [Sift.calls] using this

/-- C1: a newly constructed `Sift`, before any setter is called, holds the
default configuration: 3 samples per octave, minimum octave -1, maximum octave
4, edge threshold 10, pre-smoothing 1.6 (the `float` nearest to 1.6, which
differs from 1.6 by less than `2 ^ -24`) and inherent blur 0.5. -/
theorem Sift.ctor_defaults :
    (Sift.run []).octave_samples = 3 ∧
    (Sift.run []).min_octave = -1 ∧
    (Sift.run []).max_octave = 4 ∧
    (Sift.run []).edge_ratio_thres = 10 ∧
    (Sift.run []).pre_smoothing = f32 (16 / 10) ∧
    |(Sift.run []).pre_smoothing - 16 / 10| < 1 / 2 ^ 24 ∧
    (Sift.run []).inherent_blur = 5 / 10 := by
  refine ⟨rfl, rfl, rfl, ?_, rfl, ?_, ?_⟩
  · decide!
  · have h : (Sift.run []).pre_smoothing = 13421773 / 8388608 := by decide!
    rw [h, abs_lt]
    constructor <;> norm_num
  · decide!

/-- C2: after every sequence of setter calls on a newly constructed `Sift` the
stored minimum octave is at least -1, and `set_min_max_octave (a, b)` stores
`max (-1, a)` as minimum octave for all integers `a`, `b`. -/
theorem Sift.min_octave_ge (cs : List SiftCall) :
    -1 ≤ (Sift.run cs).min_octave ∧
    ∀ (s : Sift) (a b : Int), (s.set_min_max_octave a b).min_octave = max (-1) a := by
  refine ⟨?_, fun _ _ _ => rfl⟩
  exact calls_min_octave cs Sift.ctor (by decide)

theorem call_octave_order (s : Sift) (c : SiftCall)
    (hc : ∀ a b : Int, c = SiftCall.set_min_max_octave a b → max (-1) a ≤ b) :
    s.min_octave ≤ s.max_octave → (s.call c).min_octave ≤ (s.call c).max_octave := by
  intro h
  cases c with
  | set_min_max_octave a b => exact hc a b rfl
  | set_samples_per_octave n => exact h
  | set_contrast_threshold t => exact h
  | set_edge_threshold t => exact h
  | set_inherent_blur t => exact h
  | set_pre_smoothing t => exact h

theorem calls_octave_order (cs : List SiftCall) :
    ∀ s : Sift, (∀ a b : Int, SiftCall.set_min_max_octave a b ∈ cs → max (-1) a ≤ b) →
      s.min_octave ≤ s.max_octave → (s.calls cs).min_octave ≤ (s.calls cs).max_octave := by
  induction cs with
  | nil => intro s _ h; simpa [Sift.calls] using h
  | cons c cs ih =>
    intro s hcs h
    have h1 : (s.call c).min_octave ≤ (s.call c).max_octave :=
      call_octave_order s c (fun a b hab => hcs a b (by simp [hab])) h
    have := ih (s.call c) (fun a b hab => hcs a b (by simp [hab])) h1
    simpa [Sift.calls] using this

theorem call_contrast_thres (s : Sift) (c : SiftCall) (hc : c.isContrast = false) :
    (s.call c).contrast_thres = s.contrast_thres := by
  cases c with
  | set_contrast_threshold t => simp [SiftCall.isContrast] at hc
  | set_samples_per_octave n => rfl
  | set_min_max_octave a b => rfl
  | set_edge_threshold t => rfl
  | set_inherent_blur t => rfl
  | set_pre_smoothing t => rfl

theorem calls_contrast_thres (cs : List SiftCall) :
    ∀ s : Sift, (∀ c ∈ cs, c.isContrast = false) →
      (s.calls cs).contrast_thres = s.contrast_thres := by
  induction cs with
  | nil => intro s _; rfl
  | cons c cs ih =>
    intro s hcs
    have h1 := call_contrast_thres s c (hcs c (by simp))
    have h2 := ih (s.call c) (fun d hd => hcs d (by simp [hd]))
    simpa [Sift.calls, h1] using h2

/-- C3, counterexample: after `set_min_max_octave (3, 0)` on a newly constructed
`Sift` the stored minimum octave is 3 and the stored maximum octave is 0, so
`max_octave ≥ min_octave` does not hold after every sequence of setter calls. -/
theorem Sift.octave_order_fails :
    (Sift.run [SiftCall.set_min_max_octave 3 0]).min_octave = 3 ∧
    (Sift.run [SiftCall.set_min_max_octave 3 0]).max_octave = 0 ∧
    ¬ ∀ cs : List SiftCall, (Sift.run cs).min_octave ≤ (Sift.run cs).max_octave := by
  refine ⟨by decide, by decide, fun h => ?_⟩
  exact absurd (h [SiftCall.set_min_max_octave 3 0]) (by decide)

/-- C3, amended: `set_min_max_octave (a, b)` stores `max (-1, a)` and `b`, so that
afterwards `max_octave ≥ min_octave` holds exactly when `b ≥ max (-1, a)`; and
after every sequence of setter calls on a newly constructed `Sift` in which each
call `set_min_max_octave (a, b)` has `b ≥ max (-1, a)`, the stored configuration
satisfies `max_octave ≥ min_octave`. -/
theorem Sift.octave_order (cs : List SiftCall)
    (h : ∀ a b : Int, SiftCall.set_min_max_octave a b ∈ cs → max (-1) a ≤ b) :
    (Sift.run cs).min_octave ≤ (Sift.run cs).max_octave ∧
    ∀ (s : Sift) (a b : Int),
      (s.set_min_max_octave a b).min_octave = max (-1) a ∧
      (s.set_min_max_octave a b).max_octave = b ∧
      ((s.set_min_max_octave a b).min_octave ≤ (s.set_min_max_octave a b).max_octave ↔
        max (-1) a ≤ b) :=
  ⟨calls_octave_order cs Sift.ctor h (by decide), fun _ _ _ => ⟨rfl, rfl, Iff.rfl⟩⟩

/-- Instance: a setter sequence whose only octave-range call has `b ≥ max (-1, a)`
keeps the stored maximum octave at or above the stored minimum octave. -/
theorem Sift.octave_order_witness :
    (Sift.run [SiftCall.set_samples_per_octave 5, SiftCall.set_min_max_octave (-3) 2]).min_octave ≤
      (Sift.run [SiftCall.set_samples_per_octave 5, SiftCall.set_min_max_octave (-3) 2]).max_octave ∧
    ∀ (s : Sift) (a b : Int),
      (s.set_min_max_octave a b).min_octave = max (-1) a ∧
      (s.set_min_max_octave a b).max_octave = b ∧
      ((s.set_min_max_octave a b).min_octave ≤ (s.set_min_max_octave a b).max_octave ↔
        max (-1) a ≤ b) :=
  Sift.octave_order [SiftCall.set_samples_per_octave 5, SiftCall.set_min_max_octave (-3) 2]
    (by
      intro a b hab
      simp at hab
      obtain ⟨rfl, rfl⟩ := hab
      decide)

/-- C5, evaluation at the failing input: a newly constructed `Sift` stores the
contrast threshold `0.02f / 3.0f`, and setters other than
`set_contrast_threshold` never change it; after `set_samples_per_octave (5)` the
stored number of samples is 5 while the stored contrast threshold is still
`0.02f / 3.0f`, which differs from `0.02f / 5.0f`. -/
theorem Sift.contrast_thres_stale :
    Sift.ctor.contrast_thres = f32 (f32 (2 / 100) / f32 (Sift.ctor.octave_samples : ℚ)) ∧
    (∀ cs : List SiftCall, (∀ c ∈ cs, c.isContrast = false) →
      (Sift.run cs).contrast_thres = f32 (f32 (2 / 100) / f32 3)) ∧
    (Sift.run [SiftCall.set_samples_per_octave 5]).octave_samples = 5 ∧
    (Sift.run [SiftCall.set_samples_per_octave 5]).contrast_thres = 14316557 / 2147483648 ∧
    f32 (f32 (2 / 100) / f32 ((5 : Int) : ℚ)) = 4294967 / 1073741824 ∧
    (Sift.run [SiftCall.set_samples_per_octave 5]).contrast_thres ≠
      f32 (f32 (2 / 100) /
        f32 ((Sift.run [SiftCall.set_samples_per_octave 5]).octave_samples : ℚ)) := by
  refine ⟨rfl, ?_, by decide, by decide!, by decide!, by decide!⟩
  intro cs hcs
  exact calls_contrast_thres cs Sift.ctor hcs

/-- C7, evaluation at the failing input: a newly constructed `Sift` has minimum
octave -1 and maximum octave 4, not the documented maximum octave 5. -/
theorem Sift.ctor_max_octave_not_five :
    Sift.ctor.min_octave = -1 ∧ Sift.ctor.max_octave = 4 ∧ Sift.ctor.max_octave ≠ 5 := by
  decide

/-! ## Theorems: the octave pyramid -/

theorem gaussian_layers_length {I : Type} (ops : PyramidOps I) (count : Nat) :
    ∀ (prev : I) (s : Nat), (gaussian_layers ops prev s count).length = count := by
  induction count with
  | zero => intro prev s; rfl
  | succ n ih => intro prev s; simp [gaussian_layers, ih]

theorem add_octave_img_length {I : Type} (ops : PyramidOps I) (S : Int) (layer0 : I) :
    (add_octave ops S layer0).img.length = (S + 2).toNat + 1 := by
  simp [add_octave, gaussian_layers_length]

theorem add_octave_dog_length {I : Type} (ops : PyramidOps I) (S : Int) (layer0 : I) :
    (add_octave ops S layer0).dog.length = (S + 2).toNat := by
  simp [add_octave, gaussian_layers_length]

theorem octave_chain_length {I : Type} (ops : PyramidOps I) (S : Int) (count : Nat) :
    ∀ layer0 : I, (octave_chain ops S layer0 count).length = count := by
  induction count with
  | zero => intro layer0; rfl
  | succ n ih => intro layer0; simp [octave_chain, ih]

theorem octave_chain_mem {I : Type} (ops : PyramidOps I) (S : Int) (count : Nat) :
    ∀ (layer0 : I) (oct : SiftOctave I), oct ∈ octave_chain ops S layer0 count →
      oct.img.length = (S + 2).toNat + 1 ∧ oct.dog.length = (S + 2).toNat := by
  induction count with
  | zero => intro layer0 oct h; simp [octave_chain] at h
  | succ n ih =>
    intro layer0 oct h
    simp only [octave_chain, List.mem_cons] at h
    rcases h with h | h
    · subst h
      exact ⟨add_octave_img_length ops S layer0, add_octave_dog_length ops S layer0⟩
    · exact ih _ oct h

/-- C6: for every valid configuration (`S ≥ 1`, `o_min ≥ -1`, `o_max ≥ o_min`)
the pyramid has `o_max - o_min + 1` octaves, each holding `S + 3` Gaussian
images and `S + 2` DoG images, so that the DoG count is the Gaussian count minus
one; with the defaults of a newly constructed `Sift` these are 6 octaves with 6
Gaussian and 5 DoG images each. -/
theorem create_octaves_counts {I : Type} (ops : PyramidOps I) (cfg : Sift) (image : I)
    (h : cfg.valid) :
    ((create_octaves ops cfg image).length : Int) = cfg.max_octave - cfg.min_octave + 1 ∧
    (∀ oct ∈ create_octaves ops cfg image,
      (oct.img.length : Int) = cfg.octave_samples + 3 ∧
      (oct.dog.length : Int) = cfg.octave_samples + 2 ∧
      oct.dog.length = oct.img.length - 1) ∧
    (create_octaves ops Sift.ctor image).length = 6 ∧
    (∀ oct ∈ create_octaves ops Sift.ctor image,
      oct.img.length = 6 ∧ oct.dog.length = 5) := by
  obtain ⟨hS, _, hord⟩ := h
  refine ⟨?_, ?_, ?_, ?_⟩
  · unfold create_octaves
    rw [octave_chain_length]
    omega
  · intro oct hoct
    obtain ⟨h1, h2⟩ := octave_chain_mem ops _ _ _ oct hoct
    refine ⟨?_, ?_, ?_⟩ <;> omega
  · unfold create_octaves
    rw [octave_chain_length]
    decide
  · intro oct hoct
    obtain ⟨h1, h2⟩ := octave_chain_mem ops _ _ _ oct hoct
    have h3 : (Sift.ctor.octave_samples + 2).toNat = 5 := by decide
    omega

/-- Instance: the configuration `S = 3`, `o_min = 0`, `o_max = 2` on an image of
width 64 gives three octaves of widths 64, 32 and 16, with 6 Gaussian and 5 DoG
images each. -/
theorem create_octaves_counts_witness :
    (Sift.ctor.set_min_max_octave 0 2).valid ∧
    ((create_octaves widthOps (Sift.ctor.set_min_max_octave 0 2) 64).length : Int) =
      (Sift.ctor.set_min_max_octave 0 2).max_octave -
        (Sift.ctor.set_min_max_octave 0 2).min_octave + 1 ∧
    (create_octaves widthOps (Sift.ctor.set_min_max_octave 0 2) 64).map
      (fun oct => (oct.img, oct.dog)) =
      [([64, 64, 64, 64, 64, 64], [64, 64, 64, 64, 64]),
       ([32, 32, 32, 32, 32, 32], [32, 32, 32, 32, 32]),
       ([16, 16, 16, 16, 16, 16], [16, 16, 16, 16, 16])] :=
  ⟨by decide,
   (create_octaves_counts widthOps (Sift.ctor.set_min_max_octave 0 2) 64 (by decide)).1,
   by decide⟩

/-! ## Theorems: `ImageBase` and `TypedImageBase<T>` -/

theorem size_mul_mul (a b c : Nat) :
    size_mul (size_mul a b) c = (a * b * c) % 2 ^ 64 := by
  simp [size_mul, SIZE_MOD, Nat.mod_mul_mod]

/-- What `reinterpret` tests: the two `std::size_t` products, that is the two
products modulo `2 ^ 64`. -/
theorem reinterpret_flag (img : ImageBase) (new_w new_h new_c : Nat) :
    (img.reinterpret new_w new_h new_c).1 = false ↔
      (new_w * new_h * new_c) % 2 ^ 64 ≠ (img.w * img.h * img.c) % 2 ^ 64 := by
  rw [← size_mul_mul, ← size_mul_mul]
  unfold ImageBase.reinterpret
  split <;> simp_all

/-- Where no product wraps, `reinterpret` fails exactly when the total sizes
differ. -/
theorem reinterpret_below (img : ImageBase) (new_w new_h new_c : Nat)
    (hnew : new_w * new_h * new_c < 2 ^ 64) (hold : img.w * img.h * img.c < 2 ^ 64) :
    (img.reinterpret new_w new_h new_c).1 = false ↔
      new_w * new_h * new_c ≠ img.w * img.h * img.c := by
  have h := reinterpret_flag img new_w new_h new_c
  rwa [Nat.mod_eq_of_lt hnew, Nat.mod_eq_of_lt hold] at h

theorem vector_resize_length {T : Type} [Zero T] (max_size : Nat) (data r : List T) (n : Nat)
    (h : vector_resize max_size data n = some r) : r.length = n := by
  unfold vector_resize at h
  split at h
  · cases h
    simp only [List.length_take]
    omega
  · split at h
    · cases h
    · cases h
      simp only [List.length_append, List.length_replicate]
      omega

/-- A call of `resize` that returns leaves the dimensions it was given and a data
vector of as many values as their `std::size_t` product. -/
theorem resize_returns {T : Type} [Zero T] (max_size : Nat) (img : TypedImageBase T)
    (width height chans : Nat) (h : (img.resize max_size width height chans).thrown = false) :
    (img.resize max_size width height chans).image.w = width ∧
    (img.resize max_size width height chans).image.h = height ∧
    (img.resize max_size width height chans).image.c = chans ∧
    (img.resize max_size width height chans).image.data.length =
      (width * height * chans) % 2 ^ 64 := by
  unfold TypedImageBase.resize at h ⊢
  split at h
  · rename_i data hdata
    refine ⟨rfl, rfl, rfl, ?_⟩
    rw [← size_mul_mul]
    exact vector_resize_length max_size img.data data _ hdata
  · simp at h

/-- A call of `resize` that throws leaves the dimensions it was given and the
data vector as it was. -/
theorem resize_throws {T : Type} [Zero T] (max_size : Nat) (img : TypedImageBase T)
    (width height chans : Nat) (h : (img.resize max_size width height chans).thrown = true) :
    (img.resize max_size width height chans).image.w = width ∧
    (img.resize max_size width height chans).image.h = height ∧
    (img.resize max_size width height chans).image.c = chans ∧
    (img.resize max_size width height chans).image.data = img.data := by
  unfold TypedImageBase.resize at h ⊢
  split at h
  · simp at h
  · exact ⟨rfl, rfl, rfl, rfl⟩

/-- Where the product of the dimensions does not wrap and is within the size the
vector can be given, `allocate` returns and leaves exactly that many zeros,
whatever the image held before. -/
theorem allocate_below {T : Type} [Zero T] (max_size : Nat) (img : TypedImageBase T)
    (width height chans : Nat) (hfit : width * height * chans < 2 ^ 64)
    (hmax : width * height * chans ≤ max_size) :
    (img.allocate max_size width height chans).thrown = false ∧
    (img.allocate max_size width height chans).image.w = width ∧
    (img.allocate max_size width height chans).image.h = height ∧
    (img.allocate max_size width height chans).image.c = chans ∧
    (img.allocate max_size width height chans).image.data =
      List.replicate (width * height * chans) 0 := by
  have hn : size_mul (size_mul width height) chans = width * height * chans := by
    rw [size_mul_mul, Nat.mod_eq_of_lt hfit]
  unfold TypedImageBase.allocate TypedImageBase.resize TypedImageBase.clear vector_resize
  rw [hn]
  by_cases h0 : width * height * chans = 0
  · simp [h0]
  · have h1 : ¬ width * height * chans ≤ 0 := by omega
    have h2 : ¬ max_size < width * height * chans := by omega
    simp [h1, h2]

/-- C8, evaluation at the failing input: on a `2 x 3 x 1` image, which holds 6
values, `reinterpret (2 ^ 63 + 3, 2, 1)` returns true and stores the new
dimensions, although the new total size `(2 ^ 63 + 3) * 2 * 1 = 2 ^ 64 + 6` does
not match the current total size 6; the data vector still holds 6 values. -/
theorem TypedImageBase.reinterpret_wraps :
    image_2x3x1.width = 2 ∧ image_2x3x1.height = 3 ∧ image_2x3x1.channels = 1 ∧
    image_2x3x1.data = [0, 0, 0, 0, 0, 0] ∧
    (2 ^ 63 + 3) * 2 * 1 = 2 ^ 64 + 6 ∧
    (2 ^ 63 + 3) * 2 * 1 ≠ image_2x3x1.width * image_2x3x1.height * image_2x3x1.channels ∧
    (image_2x3x1.reinterpret (2 ^ 63 + 3) 2 1).1 = true ∧
    (image_2x3x1.reinterpret (2 ^ 63 + 3) 2 1).2.width = 2 ^ 63 + 3 ∧
    (image_2x3x1.reinterpret (2 ^ 63 + 3) 2 1).2.height = 2 ∧
    (image_2x3x1.reinterpret (2 ^ 63 + 3) 2 1).2.channels = 1 ∧
    (image_2x3x1.reinterpret (2 ^ 63 + 3) 2 1).2.get_value_amount = 6 := by
  decide

/-- C9, evaluation at the failing inputs. After `resize (2 ^ 32, 2 ^ 32, 1)` on a
default-constructed image, which returns, `get_value_amount ()` and
`get_byte_size ()` are 0 while `width * height * channels` is `2 ^ 64`. After
`resize (2 ^ 62, 1, 1)` on a `2 x 1 x 1` image of 4-byte values, which throws
with the dimensions already stored, `get_value_amount ()` is 2 while
`width * height * channels` is `2 ^ 62`. After `reinterpret (2 ^ 63 + 3, 2, 1)`
on a `2 x 3 x 1` image `get_value_amount ()` is 6 while
`width * height * channels` is `2 ^ 64 + 6`. All three images are reached from a
default-constructed one. -/
theorem TypedImageBase.value_amount_wraps :
    (TypedImageBase.Reachable
        ((TypedImageBase.ctor : TypedImageBase Int).resize MAX_SIZE_4 (2 ^ 32) (2 ^ 32) 1).image ∧
      ((TypedImageBase.ctor : TypedImageBase Int).resize MAX_SIZE_4 (2 ^ 32) (2 ^ 32) 1).thrown
        = false ∧
      ((TypedImageBase.ctor : TypedImageBase Int).resize MAX_SIZE_4 (2 ^ 32) (2 ^ 32) 1).image.width
        * ((TypedImageBase.ctor : TypedImageBase Int).resize MAX_SIZE_4 (2 ^ 32) (2 ^ 32) 1).image.height
        * ((TypedImageBase.ctor : TypedImageBase Int).resize MAX_SIZE_4 (2 ^ 32) (2 ^ 32) 1).image.channels
        = 2 ^ 64 ∧
      ((TypedImageBase.ctor : TypedImageBase Int).resize MAX_SIZE_4 (2 ^ 32) (2 ^ 32) 1).image.get_value_amount
        = 0 ∧
      ((TypedImageBase.ctor : TypedImageBase Int).resize MAX_SIZE_4 (2 ^ 32) (2 ^ 32) 1).image.get_byte_size 4
        = 0) ∧
    (TypedImageBase.Reachable
        (((TypedImageBase.ctor : TypedImageBase Int).allocate MAX_SIZE_4 2 1 1).image.resize
          MAX_SIZE_4 (2 ^ 62) 1 1).image ∧
      (((TypedImageBase.ctor : TypedImageBase Int).allocate MAX_SIZE_4 2 1 1).image.resize
          MAX_SIZE_4 (2 ^ 62) 1 1).thrown = true ∧
      (((TypedImageBase.ctor : TypedImageBase Int).allocate MAX_SIZE_4 2 1 1).image.resize
          MAX_SIZE_4 (2 ^ 62) 1 1).image.width
        * (((TypedImageBase.ctor : TypedImageBase Int).allocate MAX_SIZE_4 2 1 1).image.resize
          MAX_SIZE_4 (2 ^ 62) 1 1).image.height
        * (((TypedImageBase.ctor : TypedImageBase Int).allocate MAX_SIZE_4 2 1 1).image.resize
          MAX_SIZE_4 (2 ^ 62) 1 1).image.channels = 2 ^ 62 ∧
      (((TypedImageBase.ctor : TypedImageBase Int).allocate MAX_SIZE_4 2 1 1).image.resize
          MAX_SIZE_4 (2 ^ 62) 1 1).image.get_value_amount = 2) ∧
    (TypedImageBase.Reachable (image_2x3x1.reinterpret (2 ^ 63 + 3) 2 1).2 ∧
      (image_2x3x1.reinterpret (2 ^ 63 + 3) 2 1).2.width
        * (image_2x3x1.reinterpret (2 ^ 63 + 3) 2 1).2.height
        * (image_2x3x1.reinterpret (2 ^ 63 + 3) 2 1).2.channels = 2 ^ 64 + 6 ∧
      (image_2x3x1.reinterpret (2 ^ 63 + 3) 2 1).2.get_value_amount = 6) := by
  refine ⟨⟨?_, by decide, by decide, by decide, by decide⟩,
    ⟨?_, by decide, by decide, by decide⟩, ⟨?_, by decide, by decide⟩⟩
  · exact TypedImageBase.Reachable.resize _ _ _ _ _ TypedImageBase.Reachable.ctor
  · exact TypedImageBase.Reachable.resize _ _ _ _ _
      (TypedImageBase.Reachable.allocate _ _ _ _ _ TypedImageBase.Reachable.ctor)
  · exact TypedImageBase.Reachable.reinterpret _ _ _ _
      (TypedImageBase.Reachable.allocate _ _ _ _ _ TypedImageBase.Reachable.ctor)

/-- C10, evaluation at the failing inputs, on an image that held two values 9.
`allocate (2 ^ 32, 2 ^ 32, 1)` returns with the dimensions `(2 ^ 32, 2 ^ 32, 1)`
stored and an empty data vector, although `width * height * chans` is `2 ^ 64`.
`allocate (2 ^ 62, 1, 1)` on 4-byte values throws with the dimensions
`(2 ^ 62, 1, 1)` stored and an empty data vector. -/
theorem TypedImageBase.allocate_wraps :
    image_nines.data = [9, 9] ∧
    ((image_nines.allocate MAX_SIZE_4 (2 ^ 32) (2 ^ 32) 1).thrown = false ∧
      (image_nines.allocate MAX_SIZE_4 (2 ^ 32) (2 ^ 32) 1).image.width = 2 ^ 32 ∧
      (image_nines.allocate MAX_SIZE_4 (2 ^ 32) (2 ^ 32) 1).image.height = 2 ^ 32 ∧
      (image_nines.allocate MAX_SIZE_4 (2 ^ 32) (2 ^ 32) 1).image.channels = 1 ∧
      2 ^ 32 * 2 ^ 32 * 1 = 2 ^ 64 ∧
      (image_nines.allocate MAX_SIZE_4 (2 ^ 32) (2 ^ 32) 1).image.data = [] ∧
      (image_nines.allocate MAX_SIZE_4 (2 ^ 32) (2 ^ 32) 1).image.get_value_amount = 0) ∧
    ((image_nines.allocate MAX_SIZE_4 (2 ^ 62) 1 1).thrown = true ∧
      (image_nines.allocate MAX_SIZE_4 (2 ^ 62) 1 1).image.width = 2 ^ 62 ∧
      (image_nines.allocate MAX_SIZE_4 (2 ^ 62) 1 1).image.height = 1 ∧
      (image_nines.allocate MAX_SIZE_4 (2 ^ 62) 1 1).image.channels = 1 ∧
      (image_nines.allocate MAX_SIZE_4 (2 ^ 62) 1 1).image.data = []) := by
  decide

end mve
